import Mathlib

/-!
Shallow embedding of the MCP SSH server (`src/build/index.js`) and proofs
about its tool handlers and dispatcher.

The server keeps a process-wide map `connections` from a caller-chosen
connection id to a live ssh2 `Client` handle plus the endpoint parameters
used at connect time.  Each tool handler validates its inputs, performs
one sequence of transport-library calls, and funnels both success and
failure into a normalized result envelope (`content` list plus `isError`
flag).  External effects (filesystem reads, the ssh2 library, timers) are
modelled by an oracle `World` fixed for the duration of one invocation,
and every transport-library call a handler makes is recorded in an event
trace so that "no transport call is attempted" claims are statable.
-/

set_option autoImplicit false

namespace SSHMCP

/-- One content item of a result envelope (`{ type: "text", text: ... }`). -/
structure Content where
  type : String
  text : String
deriving DecidableEq, Repr

/-- The Operation Result envelope returned by every handler:
a list of content items plus the `isError` flag (absent in the JS success
objects, i.e. `false`). -/
structure ToolResult where
  content : List Content
  isError : Bool
deriving DecidableEq, Repr

/-- Error envelope as built at every failure site in `index.js`:
one text content item and `isError: true`. -/
def errResult (msg : String) : ToolResult :=
  { content := [{ type := "text", text := msg }], isError := true }

/-- Success envelope: one text content item, no `isError` field (false). -/
def okResult (msg : String) : ToolResult :=
  { content := [{ type := "text", text := msg }], isError := false }

/-- Endpoint parameters retained in the connection table
(`config: { host, port, username }` at `index.js:322`). -/
structure ConnConfig where
  host : String
  port : Nat
  username : String
deriving DecidableEq, Repr

/-- One entry of the connection table: the ssh2 client handle
(modelled as a numeric handle identity) plus the stored endpoint. -/
structure ConnRecord where
  conn : Nat
  config : ConnConfig
deriving DecidableEq, Repr

/-- Lookup, as `Map.get`: first entry with the given key (a JS `Map` has at most one). -/
def tableGet (k : String) : List (String × ConnRecord) → Option ConnRecord
  | [] => none
  | e :: es => if e.1 == k then some e.2 else tableGet k es

/-- Insertion, as `Map.set`: bind `k` to `v`, dropping any previous binding of `k`. -/
def tableSet (k : String) (v : ConnRecord) (t : List (String × ConnRecord)) :
    List (String × ConnRecord) :=
  (k, v) :: t.filter (fun e => !(e.1 == k))

/-- Removal, as `Map.delete`: drop the binding of `k`. -/
def tableDel (k : String) (t : List (String × ConnRecord)) :
    List (String × ConnRecord) :=
  t.filter (fun e => !(e.1 == k))

/-- The server's mutable state: the connection table plus the set of local
directories that exist (the only local-filesystem state a handler mutates,
via `fs.mkdirSync` in the download handler). -/
structure ServerState where
  connections : List (String × ConnRecord)
  localDirs : List String
deriving DecidableEq, Repr

/-- The ssh2 connect options object assembled by `handleSSHConnect`. -/
structure SSHConfig where
  host : String
  port : Nat
  username : String
  readyTimeout : Nat
  privateKey : Option String := none
  passphrase : Option String := none
  password : Option String := none
deriving DecidableEq, Repr

/-- Outcome of one `conn.exec` call as observed by the handler's promise:
the `exec` callback got an error, the timeout timer fired first, or the
stream closed with an exit code, optional signal and collected output. -/
inductive ExecOutcome where
  | startError (msg : String)
  | timedOut
  | closed (code : Int) (signal : Option String) (stdout stderr : String)
deriving DecidableEq, Repr

/-- Trace of the external calls a handler performs, in order. -/
inductive Event where
  | readKeyFile (path : String)
  | clientConnect (cfg : SSHConfig)
  | execCall (handle : Nat) (command : String)
  | sftpInit (handle : Nat)
  | fastPut (handle : Nat) (localPath remotePath : String)
  | fastGet (handle : Nat) (remotePath localPath : String)
  | readdir (handle : Nat) (path : String)
  | connEnd (handle : Nat)
  | mkdirRec (dir : String)
deriving DecidableEq, Repr

/-- A directory entry's attributes as delivered by sftp `readdir`. -/
structure FileAttrs where
  mode : Nat
  size : Nat
  mtime : Nat
deriving DecidableEq, Repr

/-- A directory entry as delivered by sftp `readdir`. -/
structure DirEntry where
  filename : String
  attrs : FileAttrs
deriving DecidableEq, Repr

/-- Oracle for all external effects observable during one invocation:
the clock, the home directory, filesystem probes, and the outcome of each
transport-library call the handler may perform. -/
structure World where
  now : Nat
  homedir : String
  readFile : String → Except String String
  existsFile : String → Bool
  freshConn : Nat
  connectOutcome : Except String Unit
  execOutcome : ExecOutcome
  sftpOutcome : Except String Unit
  fastPutOutcome : Except String Unit
  fastGetOutcome : Except String Unit
  readdirOutcome : Except String (List DirEntry)
  endOutcome : Except String Unit

/-- JS truthiness of an optional string parameter (`undefined` and the
empty string are falsy). -/
def truthy : Option String → Bool
  | none => false
  | some s => !(s == "")

/-- Tilde expansion `p.replace(/^~/, os.homedir())`: replace a leading tilde by the home
directory. -/
def expandTilde (home : String) (p : String) : String :=
  match p.data with
  | '~' :: rest => home ++ String.mk rest
  | _ => p

/-- Parameters of `ssh_connect` after destructuring with defaults
(`port = 22`, `connectionId` defaulted from the clock by the caller of
this definition). -/
structure ConnectParams where
  host : String
  port : Nat
  username : String
  password : Option String
  privateKeyPath : Option String
  passphrase : Option String
  connectionId : String
deriving DecidableEq, Repr

/-- Tail of `handleSSHConnect` from `conn.connect(sshConfig)` on: await
ready/error, then store the connection record and report success, or
report `Failed to connect`. -/
def connectFinish (w : World) (st : ServerState) (p : ConnectParams)
    (cfg : SSHConfig) (evs : List Event) :
    ToolResult × ServerState × List Event :=
  match w.connectOutcome with
  | .error msg =>
      (errResult ("Failed to connect: SSH connection error: " ++ msg), st,
       evs ++ [Event.clientConnect cfg])
  | .ok _ =>
      let record : ConnRecord :=
        { conn := w.freshConn
        , config := { host := p.host, port := p.port, username := p.username } }
      (okResult ("Successfully connected to " ++ p.username ++ "@" ++ p.host ++ ":"
          ++ toString p.port ++ "\nConnection ID: " ++ p.connectionId),
       { st with connections := tableSet p.connectionId record st.connections },
       evs ++ [Event.clientConnect cfg])

/-- Handler `handleSSHConnect` (`index.js:272`): require a credential, read (and
tilde-expand) the private key file when a key path is given, then attempt
the transport connect and store the record on success. -/
def handleSSHConnect (w : World) (st : ServerState) (p : ConnectParams) :
    ToolResult × ServerState × List Event :=
  if !(truthy p.password) && !(truthy p.privateKeyPath) then
    (errResult "Either password or privateKeyPath must be provided", st, [])
  else if truthy p.privateKeyPath then
    let expandedPath := expandTilde w.homedir (p.privateKeyPath.getD "")
    match w.readFile expandedPath with
    | .error msg =>
        (errResult ("Failed to read private key: " ++ msg), st,
         [Event.readKeyFile expandedPath])
    | .ok key =>
        connectFinish w st p
          { host := p.host, port := p.port, username := p.username
          , readyTimeout := 30000
          , privateKey := some key
          , passphrase := if truthy p.passphrase then p.passphrase else none }
          [Event.readKeyFile expandedPath]
  else
    connectFinish w st p
      { host := p.host, port := p.port, username := p.username
      , readyTimeout := 30000
      , password := p.password }
      []

/-- Parameters of `ssh_exec` after destructuring with defaults
(`timeout = 60000`). -/
structure ExecParams where
  connectionId : String
  command : String
  cwd : Option String
  timeout : Nat
deriving DecidableEq, Repr

/-- Output selection `result.stdout || result.stderr || '(no output)'` on the trimmed
streams. -/
def outputOf (stdout stderr : String) : String :=
  if !(stdout == "") then stdout else if !(stderr == "") then stderr
  else "(no output)"

/-- Handler `handleSSHExec` (`index.js:337`): unknown id fails; otherwise run the
command, report `CommandTimeout`/`ExecStartError` as error envelopes and
any completed exit (zero or not) as a success envelope. -/
def handleSSHExec (w : World) (st : ServerState) (p : ExecParams) :
    ToolResult × ServerState × List Event :=
  match tableGet p.connectionId st.connections with
  | none =>
      (errResult ("No active SSH connection with ID: " ++ p.connectionId), st, [])
  | some record =>
      match w.execOutcome with
      | .startError msg =>
          (errResult ("Command execution failed: Failed to execute command: " ++ msg),
           st, [Event.execCall record.conn p.command])
      | .timedOut =>
          (errResult ("Command execution failed: Command execution timed out after "
              ++ toString p.timeout ++ "ms"),
           st, [Event.execCall record.conn p.command])
      | .closed code _signal stdout stderr =>
          (okResult ("Command: " ++ p.command ++ "\nExit code: " ++ toString code
              ++ "\nOutput:\n" ++ outputOf stdout.trim stderr.trim),
           st, [Event.execCall record.conn p.command])

/-- Parameters of `ssh_upload_file`. -/
structure UploadParams where
  connectionId : String
  localPath : String
  remotePath : String
deriving DecidableEq, Repr

/-- Handler `handleSSHUpload` (`index.js:396`): unknown id fails; tilde-expand the
local path; missing local file fails before any sftp call; then init sftp
and `fastPut`. -/
def handleSSHUpload (w : World) (st : ServerState) (p : UploadParams) :
    ToolResult × ServerState × List Event :=
  match tableGet p.connectionId st.connections with
  | none =>
      (errResult ("No active SSH connection with ID: " ++ p.connectionId), st, [])
  | some record =>
      let expandedLocalPath := expandTilde w.homedir p.localPath
      if !(w.existsFile expandedLocalPath) then
        (errResult ("Local file does not exist: " ++ expandedLocalPath), st, [])
      else
        match w.sftpOutcome with
        | .error msg =>
            (errResult ("File upload failed: Failed to initialize SFTP: " ++ msg),
             st, [Event.sftpInit record.conn])
        | .ok _ =>
            match w.fastPutOutcome with
            | .error msg =>
                (errResult ("File upload failed: Failed to upload file: " ++ msg),
                 st, [Event.sftpInit record.conn,
                      Event.fastPut record.conn expandedLocalPath p.remotePath])
            | .ok _ =>
                (okResult ("Successfully uploaded " ++ expandedLocalPath ++ " to "
                    ++ p.remotePath),
                 st, [Event.sftpInit record.conn,
                      Event.fastPut record.conn expandedLocalPath p.remotePath])

/-- Node's POSIX `path.dirname`: scan from the end past trailing slashes,
then past the basename, to the separating slash; handle the rooted and
double-slash corner cases. -/
def dirname (p : String) : String :=
  match p.data with
  | [] => "."
  | c0 :: rest =>
    let hasRoot := c0 == '/'
    let r1 := rest.reverse.dropWhile (fun c => c == '/')
    let r2 := r1.dropWhile (fun c => !(c == '/'))
    if r2.isEmpty then
      if hasRoot then "/" else "."
    else if hasRoot && r2.length == 1 then "//"
    else String.mk ((c0 :: rest).take r2.length)

/-- Chain of proper ancestors of a directory path, obtained by iterating
`dirname` to its fixpoint (fuel-bounded; `dirname` shortens every
non-fixpoint path). -/
def ancestorsAux : Nat → String → List String
  | 0, _ => []
  | fuel + 1, d =>
    let parent := dirname d
    if parent == d then [] else parent :: ancestorsAux fuel parent

/-- Effect of `fs.mkdirSync(dir, ... recursive ...)` on the local-directory set:
the directory and all its missing ancestors now exist. -/
def mkdirRecursive (dirs : List String) (d : String) : List String :=
  d :: ancestorsAux (d.length + 1) d ++ dirs

/-- Parameters of `ssh_download_file`. -/
structure DownloadParams where
  connectionId : String
  remotePath : String
  localPath : String
deriving DecidableEq, Repr

/-- Handler `handleSSHDownload` (`index.js:449`): unknown id fails; tilde-expand
the local path; ensure its parent directory exists (recursive mkdir only
when missing) before the transfer; then init sftp and `fastGet`. -/
def handleSSHDownload (w : World) (st : ServerState) (p : DownloadParams) :
    ToolResult × ServerState × List Event :=
  match tableGet p.connectionId st.connections with
  | none =>
      (errResult ("No active SSH connection with ID: " ++ p.connectionId), st, [])
  | some record =>
      let expandedLocalPath := expandTilde w.homedir p.localPath
      let dir := dirname expandedLocalPath
      let mkStep : List String × List Event :=
        if !(st.localDirs.contains dir) then
          (mkdirRecursive st.localDirs dir, [Event.mkdirRec dir])
        else
          (st.localDirs, [])
      let st2 : ServerState := { st with localDirs := mkStep.1 }
      match w.sftpOutcome with
      | .error msg =>
          (errResult ("File download failed: Failed to initialize SFTP: " ++ msg),
           st2, mkStep.2 ++ [Event.sftpInit record.conn])
      | .ok _ =>
          match w.fastGetOutcome with
          | .error msg =>
              (errResult ("File download failed: Failed to download file: " ++ msg),
               st2, mkStep.2 ++ [Event.sftpInit record.conn,
                    Event.fastGet record.conn p.remotePath expandedLocalPath])
          | .ok _ =>
              (okResult ("Successfully downloaded " ++ p.remotePath ++ " to "
                  ++ expandedLocalPath),
               st2, mkStep.2 ++ [Event.sftpInit record.conn,
                    Event.fastGet record.conn p.remotePath expandedLocalPath])

/-- Left-pad a decimal rendering with zeros to the given width. -/
def padNum (width n : Nat) : String :=
  let s := toString n
  if s.length < width then String.mk (List.replicate (width - s.length) '0') ++ s
  else s

/-- Proleptic-Gregorian civil date (year, month, day) of a day count from
1970-01-01, as computed by ECMAScript `Date` (era-decomposition
algorithm). -/
def civilFromDays (z0 : Int) : Int × Nat × Nat :=
  let z : Int := z0 + 719468
  let era : Int := (if 0 ≤ z then z else z - 146096) / 146097
  let doe : Nat := (z - era * 146097).toNat
  let yoe : Nat := (doe - doe / 1460 + doe / 36524 - doe / 146096) / 365
  let y : Int := (yoe : Int) + era * 400
  let doy : Nat := doe - (365 * yoe + yoe / 4 - yoe / 100)
  let mp : Nat := (5 * doy + 2) / 153
  let d : Nat := doy - (153 * mp + 2) / 5 + 1
  let m : Nat := if mp < 10 then mp + 3 else mp - 9
  (if m ≤ 2 then y + 1 else y, m, d)

/-- Rendering `new Date(t).toISOString()` for a nonnegative millisecond time value:
`YYYY-MM-DDTHH:mm:ss.sssZ`, with the expanded-year form beyond 9999. -/
def toISOString (t : Nat) : String :=
  let ms := t % 1000
  let s := t / 1000
  let days := s / 86400
  let c := civilFromDays (days : Int)
  let y := c.1
  let yearStr :=
    if 9999 < y then "+" ++ padNum 6 y.toNat else padNum 4 y.toNat
  yearStr ++ "-" ++ padNum 2 c.2.1 ++ "-" ++ padNum 2 c.2.2 ++ "T"
    ++ padNum 2 (s / 3600 % 24) ++ ":" ++ padNum 2 (s / 60 % 60) ++ ":"
    ++ padNum 2 (s % 60) ++ "." ++ padNum 3 ms ++ "Z"

/-- Hexadecimal digit for a value below 16 (JSON `\\u00xx` escapes). -/
def hexDigit (n : Nat) : Char :=
  if n < 10 then Char.ofNat (48 + n) else Char.ofNat (87 + n)

/-- JSON escaping of one character, as `JSON.stringify` performs it. -/
def escChar (c : Char) : String :=
  if c == '"' then "\\\""
  else if c == '\\' then "\\\\"
  else if c == '\n' then "\\n"
  else if c == '\r' then "\\r"
  else if c == '\t' then "\\t"
  else if c == '\x08' then "\\b"
  else if c == '\x0c' then "\\f"
  else if c.toNat < 32 then
    "\\u00" ++ String.mk [hexDigit (c.toNat / 16), hexDigit (c.toNat % 16)]
  else String.singleton c

/-- JSON escaping of a string. -/
def jsonEscape (s : String) : String :=
  String.join (s.data.map escChar)

/-- One element of the file list the list handler emits
(`{ filename, isDirectory, size, lastModified }`). -/
structure FileInfo where
  filename : String
  isDirectory : Bool
  size : Nat
  lastModified : String
deriving DecidableEq, Repr

/-- The per-entry mapping in `handleSSHListFiles` (`index.js:533`):
directory flag from the `0x4000` mode bit, ISO timestamp from the
seconds-since-epoch `mtime`. -/
def fileInfoOf (file : DirEntry) : FileInfo :=
  { filename := file.filename
  , isDirectory := (file.attrs.mode &&& 16384) == 16384
  , size := file.attrs.size
  , lastModified := toISOString (file.attrs.mtime * 1000) }

/-- Rendering of `JSON.stringify` with indent 2 of one file-info object at
array-element depth. -/
def stringifyFileInfo (f : FileInfo) : String :=
  "  \x7b\n"
    ++ "    \"filename\": \"" ++ jsonEscape f.filename ++ "\",\n"
    ++ "    \"isDirectory\": " ++ (if f.isDirectory then "true" else "false") ++ ",\n"
    ++ "    \"size\": " ++ toString f.size ++ ",\n"
    ++ "    \"lastModified\": \"" ++ jsonEscape f.lastModified ++ "\"\n"
    ++ "  \x7d"

/-- Rendering of `JSON.stringify(fileList, null, 2)`. -/
def stringifyFileList (l : List FileInfo) : String :=
  match l with
  | [] => "[]"
  | _ => "[\n" ++ String.intercalate ",\n" (l.map stringifyFileInfo) ++ "\n]"

/-- Parameters of `ssh_list_files`. -/
structure ListParams where
  connectionId : String
  remotePath : String
deriving DecidableEq, Repr

/-- Handler `handleSSHListFiles` (`index.js:500`): unknown id fails; init sftp,
read the directory, map each entry through `fileInfoOf` and serialize. -/
def handleSSHListFiles (w : World) (st : ServerState) (p : ListParams) :
    ToolResult × ServerState × List Event :=
  match tableGet p.connectionId st.connections with
  | none =>
      (errResult ("No active SSH connection with ID: " ++ p.connectionId), st, [])
  | some record =>
      match w.sftpOutcome with
      | .error msg =>
          (errResult ("Failed to list files: Failed to initialize SFTP: " ++ msg),
           st, [Event.sftpInit record.conn])
      | .ok _ =>
          match w.readdirOutcome with
          | .error msg =>
              (errResult ("Failed to list files: Failed to list files: " ++ msg),
               st, [Event.sftpInit record.conn, Event.readdir record.conn p.remotePath])
          | .ok files =>
              (okResult ("Files in " ++ p.remotePath ++ ":\n\n"
                  ++ stringifyFileList (files.map fileInfoOf)),
               st, [Event.sftpInit record.conn, Event.readdir record.conn p.remotePath])

/-- Parameters of `ssh_disconnect`. -/
structure DisconnectParams where
  connectionId : String
deriving DecidableEq, Repr

/-- Handler `handleSSHDisconnect` (`index.js:553`): unknown id fails; close the
handle, remove the table entry, confirm with the endpoint stored at
connect time. -/
def handleSSHDisconnect (w : World) (st : ServerState) (p : DisconnectParams) :
    ToolResult × ServerState × List Event :=
  match tableGet p.connectionId st.connections with
  | none =>
      (errResult ("No active SSH connection with ID: " ++ p.connectionId), st, [])
  | some record =>
      match w.endOutcome with
      | .error msg =>
          (errResult ("Failed to disconnect: " ++ msg), st,
           [Event.connEnd record.conn])
      | .ok _ =>
          (okResult ("Disconnected from " ++ record.config.username ++ "@"
              ++ record.config.host ++ ":" ++ toString record.config.port),
           { st with connections := tableDel p.connectionId st.connections },
           [Event.connEnd record.conn])

/-- The raw argument bundle of a tool invocation: every parameter any tool
accepts, each possibly absent. -/
structure Args where
  host : Option String := none
  port : Option Nat := none
  username : Option String := none
  password : Option String := none
  privateKeyPath : Option String := none
  passphrase : Option String := none
  connectionId : Option String := none
  command : Option String := none
  cwd : Option String := none
  timeout : Option Nat := none
  localPath : Option String := none
  remotePath : Option String := none
deriving Repr

/-- A missing required string renders as JS `undefined` does in template
literals and fails every table lookup, which the sentinel preserves. -/
def undefStr (o : Option String) : String := o.getD "undefined"

/-- The `CallToolRequestSchema` dispatcher (`index.js:253`): switch on the
tool name to the matching handler (destructuring defaults applied), and
`throw new Error` — modelled as `Except.error` — on any other name. -/
def callToolRequest (w : World) (st : ServerState) (name : String) (args : Args) :
    Except String (ToolResult × ServerState × List Event) :=
  if name == "ssh_connect" then
    .ok (handleSSHConnect w st
      { host := undefStr args.host
      , port := args.port.getD 22
      , username := undefStr args.username
      , password := args.password
      , privateKeyPath := args.privateKeyPath
      , passphrase := args.passphrase
      , connectionId := args.connectionId.getD ("ssh-" ++ toString w.now) })
  else if name == "ssh_exec" then
    .ok (handleSSHExec w st
      { connectionId := undefStr args.connectionId
      , command := undefStr args.command
      , cwd := args.cwd
      , timeout := args.timeout.getD 60000 })
  else if name == "ssh_upload_file" then
    .ok (handleSSHUpload w st
      { connectionId := undefStr args.connectionId
      , localPath := undefStr args.localPath
      , remotePath := undefStr args.remotePath })
  else if name == "ssh_download_file" then
    .ok (handleSSHDownload w st
      { connectionId := undefStr args.connectionId
      , remotePath := undefStr args.remotePath
      , localPath := undefStr args.localPath })
  else if name == "ssh_list_files" then
    .ok (handleSSHListFiles w st
      { connectionId := undefStr args.connectionId
      , remotePath := undefStr args.remotePath })
  else if name == "ssh_disconnect" then
    .ok (handleSSHDisconnect w st
      { connectionId := undefStr args.connectionId })
  else
    .error ("Unknown tool: " ++ name)

/-- The six tool names registered in the dispatcher's switch. -/
def isRegisteredTool (name : String) : Bool :=
  name == "ssh_connect" || name == "ssh_exec" || name == "ssh_upload_file"
    || name == "ssh_download_file" || name == "ssh_list_files"
    || name == "ssh_disconnect"

/-- Whether a dispatcher outcome is a returned value (rather than a thrown
error). -/
def dispatchOk : Except String (ToolResult × ServerState × List Event) → Bool
  | .ok _ => true
  | .error _ => false

/-- A concrete oracle used by the witness instantiations. -/
def w0 : World :=
  { now := 0
  , homedir := "/home/u"
  , readFile := fun p =>
      if p == "/home/u/.ssh/id" then .ok "KEYDATA" else .error "ENOENT"
  , existsFile := fun _ => false
  , freshConn := 1
  , connectOutcome := .ok ()
  , execOutcome := .closed 0 none "hi\n" ""
  , sftpOutcome := .ok ()
  , fastPutOutcome := .ok ()
  , fastGetOutcome := .ok ()
  , readdirOutcome := .ok []
  , endOutcome := .ok () }

/-- Oracle whose exec call times out. -/
def wTimeout : World := { w0 with execOutcome := ExecOutcome.timedOut }

/-- Oracle whose exec call completes with exit code 2. -/
def wExit2 : World := { w0 with execOutcome := ExecOutcome.closed 2 none "" "boom" }

/-- Oracle whose key-file read always fails. -/
def wReadErr : World := { w0 with readFile := fun _ => .error "ENOENT" }

/-- Directory entries used by the list-handler witness: one regular file
(mode `0o100644`) and one directory (mode `0o40755`). -/
def sampleEntries : List DirEntry :=
  [ { filename := "f.txt", attrs := { mode := 33188, size := 12, mtime := 1700000000 } }
  , { filename := "d", attrs := { mode := 16877, size := 4096, mtime := 0 } } ]

/-- Oracle delivering `sampleEntries` on readdir. -/
def wListing : World := { w0 with readdirOutcome := Except.ok sampleEntries }

/-- The empty server state. -/
def stEmpty : ServerState := { connections := [], localDirs := [] }

/-- A connection record bound to id `c1` in `stOne`. -/
def rec1 : ConnRecord :=
  { conn := 7, config := { host := "h", port := 22, username := "u" } }

/-- A server state with one live connection `c1`. -/
def stOne : ServerState := { connections := [("c1", rec1)], localDirs := ["/tmp"] }

/-- A server state whose local directory `/home/u/dl` already exists. -/
def stDirs : ServerState :=
  { connections := [("c1", rec1)], localDirs := ["/home/u/dl"] }

/-- An empty argument bundle. -/
def args0 : Args := {}

section TableLemmas

theorem tableGet_tableSet_self (k : String) (v : ConnRecord)
    (t : List (String × ConnRecord)) :
    tableGet k (tableSet k v t) = some v := by
  simp [tableGet, tableSet]

theorem tableGet_filter_self (k : String) (t : List (String × ConnRecord)) :
    tableGet k (t.filter (fun e => !(e.1 == k))) = none := by
  induction t with
  | nil => rfl
  | cons e es ih =>
    by_cases hk : e.1 = k
    · simpa [List.filter_cons, hk] using ih
    · simpa [List.filter_cons, hk, tableGet] using ih

theorem tableGet_filter_ne (k k2 : String) (t : List (String × ConnRecord))
    (h : k2 ≠ k) :
    tableGet k2 (t.filter (fun e => !(e.1 == k))) = tableGet k2 t := by
  induction t with
  | nil => rfl
  | cons e es ih =>
    by_cases hk : (e.1 == k) = true
    · have hne : (e.1 == k2) = false := by
        have : e.1 = k := by simpa using hk
        simp [this, beq_eq_false_iff_ne]
        exact fun hkk => h hkk.symm
      simp only [List.filter_cons, hk]
      simpa [tableGet, hne] using ih
    · simp only [List.filter_cons, hk]
      by_cases h2 : (e.1 == k2) = true
      · simp [tableGet, h2]
      · simpa [tableGet, h2] using ih

theorem tableGet_tableSet_ne (k k2 : String) (v : ConnRecord)
    (t : List (String × ConnRecord)) (h : k2 ≠ k) :
    tableGet k2 (tableSet k v t) = tableGet k2 t := by
  have hne : (k == k2) = false := by
    simp [beq_eq_false_iff_ne]
    exact fun hkk => h hkk.symm
  simp only [tableSet, tableGet, hne]
  simpa using tableGet_filter_ne k k2 t h

theorem tableGet_tableDel_self (k : String) (t : List (String × ConnRecord)) :
    tableGet k (tableDel k t) = none :=
  tableGet_filter_self k t

theorem keys_filter_not_mem (k : String) (t : List (String × ConnRecord)) :
    k ∉ (t.filter (fun e => !(e.1 == k))).map Prod.fst := by
  intro hmem
  rcases List.mem_map.mp hmem with ⟨e, he, hfst⟩
  have hp := (List.mem_filter.mp he).2
  rw [hfst] at hp
  simp at hp

theorem nodup_keys_filter (k : String) (t : List (String × ConnRecord))
    (h : (t.map Prod.fst).Nodup) :
    ((t.filter (fun e => !(e.1 == k))).map Prod.fst).Nodup := by
  induction t with
  | nil => simp
  | cons e es ih =>
    rw [List.map_cons, List.nodup_cons] at h
    by_cases hk : (e.1 == k) = true
    · simpa [List.filter_cons, hk] using ih h.2
    · simp only [List.filter_cons, hk]
      rw [Bool.not_false, if_pos rfl, List.map_cons, List.nodup_cons]
      refine ⟨fun hmem => ?_, ih h.2⟩
      rcases List.mem_map.mp hmem with ⟨e2, he2, hfst⟩
      exact h.1 (List.mem_map.mpr ⟨e2, List.mem_of_mem_filter he2, hfst⟩)

theorem nodup_keys_tableSet (k : String) (v : ConnRecord)
    (t : List (String × ConnRecord)) (h : (t.map Prod.fst).Nodup) :
    ((tableSet k v t).map Prod.fst).Nodup := by
  rw [tableSet, List.map_cons, List.nodup_cons]
  exact ⟨keys_filter_not_mem k t, nodup_keys_filter k t h⟩

end TableLemmas

/-- Claim C2: for every handler other than connect (execute, upload,
download, list, disconnect), invoking it with a connection id absent from
the table returns the UnknownConnection error envelope, leaves the state
unchanged, and attempts no transport-capability call (empty event trace). -/
theorem c2_unknown_connection (w : World) (st : ServerState)
    (idc cmd lp rp : String) (cwd : Option String) (tmo : Nat)
    (h : tableGet idc st.connections = none) :
    handleSSHExec w st
        { connectionId := idc, command := cmd, cwd := cwd, timeout := tmo } =
      (errResult ("No active SSH connection with ID: " ++ idc), st, [])
    ∧ handleSSHUpload w st
        { connectionId := idc, localPath := lp, remotePath := rp } =
      (errResult ("No active SSH connection with ID: " ++ idc), st, [])
    ∧ handleSSHDownload w st
        { connectionId := idc, remotePath := rp, localPath := lp } =
      (errResult ("No active SSH connection with ID: " ++ idc), st, [])
    ∧ handleSSHListFiles w st { connectionId := idc, remotePath := rp } =
      (errResult ("No active SSH connection with ID: " ++ idc), st, [])
    ∧ handleSSHDisconnect w st { connectionId := idc } =
      (errResult ("No active SSH connection with ID: " ++ idc), st, []) := by
  refine ⟨?_, ?_, ?_, ?_, ?_⟩ <;>
    simp [handleSSHExec, handleSSHUpload, handleSSHDownload, handleSSHListFiles,
      handleSSHDisconnect, h]

/-- Witness for C2 at the empty table and id `c9`. -/
theorem c2_unknown_connection_witness :
    handleSSHExec w0 stEmpty
        { connectionId := "c9", command := "ls", cwd := none, timeout := 60000 } =
      (errResult ("No active SSH connection with ID: " ++ "c9"), stEmpty, [])
    ∧ handleSSHUpload w0 stEmpty
        { connectionId := "c9", localPath := "/a", remotePath := "/b" } =
      (errResult ("No active SSH connection with ID: " ++ "c9"), stEmpty, [])
    ∧ handleSSHDownload w0 stEmpty
        { connectionId := "c9", remotePath := "/b", localPath := "/a" } =
      (errResult ("No active SSH connection with ID: " ++ "c9"), stEmpty, [])
    ∧ handleSSHListFiles w0 stEmpty { connectionId := "c9", remotePath := "/b" } =
      (errResult ("No active SSH connection with ID: " ++ "c9"), stEmpty, [])
    ∧ handleSSHDisconnect w0 stEmpty { connectionId := "c9" } =
      (errResult ("No active SSH connection with ID: " ++ "c9"), stEmpty, []) :=
  c2_unknown_connection w0 stEmpty "c9" "ls" "/a" "/b" none 60000 rfl

/-- Claim C3: a connect invocation supplying neither password nor
privateKeyPath returns the MissingCredential error envelope, leaves the
state unchanged, and performs no network action (empty event trace: no
client connect, not even a key-file read). -/
theorem c3_missing_credential (w : World) (st : ServerState) (p : ConnectParams)
    (hpw : p.password = none) (hpk : p.privateKeyPath = none) :
    handleSSHConnect w st p =
      (errResult "Either password or privateKeyPath must be provided", st, []) := by
  simp [handleSSHConnect, truthy, hpw, hpk]

/-- Witness for C3 at a concrete credential-free connect invocation. -/
theorem c3_missing_credential_witness :
    handleSSHConnect w0 stEmpty
        { host := "h", port := 22, username := "u", password := none
        , privateKeyPath := none, passphrase := none, connectionId := "c1" } =
      (errResult "Either password or privateKeyPath must be provided", stEmpty, []) :=
  c3_missing_credential w0 stEmpty
    { host := "h", port := 22, username := "u", password := none
    , privateKeyPath := none, passphrase := none, connectionId := "c1" } rfl rfl

/-- Claim C10: execute, upload, download and list never touch the
connection table, whatever the connection id or outcome: the table after
the call is the table before it (only connect writes entries and only
disconnect removes them). -/
theorem c10_table_frame (w : World) (st : ServerState)
    (pe : ExecParams) (pu : UploadParams) (pd : DownloadParams) (pl : ListParams) :
    (handleSSHExec w st pe).2.1.connections = st.connections
    ∧ (handleSSHUpload w st pu).2.1.connections = st.connections
    ∧ (handleSSHDownload w st pd).2.1.connections = st.connections
    ∧ (handleSSHListFiles w st pl).2.1.connections = st.connections := by
  refine ⟨?_, ?_, ?_, ?_⟩
  · cases h : tableGet pe.connectionId st.connections <;>
      cases he : w.execOutcome <;> simp [handleSSHExec, h, he]
  · cases h : tableGet pu.connectionId st.connections <;>
      cases hs : w.sftpOutcome <;> cases hp : w.fastPutOutcome <;>
      simp [handleSSHUpload, h, hs, hp] <;> split <;> simp
  · cases h : tableGet pd.connectionId st.connections <;>
      cases hs : w.sftpOutcome <;> cases hg : w.fastGetOutcome <;>
      simp [handleSSHDownload, h, hs, hg]
  · cases h : tableGet pl.connectionId st.connections <;>
      cases hs : w.sftpOutcome <;> cases hr : w.readdirOutcome <;>
      simp [handleSSHListFiles, h, hs, hr]

/-- Claim C4: on a known connection id, an execute whose remote process
exceeds the timeout yields the CommandTimeout error envelope (timeout
value interpolated), while a completed process — whatever its exit code —
yields a non-error envelope whose text carries that exit code; the
dispatcher destructuring defaults an absent timeout to 60000 ms. -/
theorem c4_exec_timeout_and_exit (st : ServerState) (p : ExecParams)
    (cr : ConnRecord) (w1 w2 : World) (code : Int) (sig : Option String)
    (so se : String) (a : Args)
    (hconn : tableGet p.connectionId st.connections = some cr)
    (h1 : w1.execOutcome = ExecOutcome.timedOut)
    (h2 : w2.execOutcome = ExecOutcome.closed code sig so se)
    (ha : a.timeout = none) :
    (handleSSHExec w1 st p).1 =
      errResult ("Command execution failed: Command execution timed out after "
        ++ toString p.timeout ++ "ms")
    ∧ (handleSSHExec w2 st p).1 =
      okResult ("Command: " ++ p.command ++ "\nExit code: " ++ toString code
        ++ "\nOutput:\n" ++ outputOf so.trim se.trim)
    ∧ (handleSSHExec w2 st p).1.isError = false
    ∧ callToolRequest w1 st "ssh_exec" a =
      Except.ok (handleSSHExec w1 st
        { connectionId := undefStr a.connectionId
        , command := undefStr a.command
        , cwd := a.cwd
        , timeout := 60000 }) := by
  refine ⟨?_, ?_, ?_, ?_⟩
  · simp [handleSSHExec, hconn, h1]
  · simp [handleSSHExec, hconn, h2]
  · simp [handleSSHExec, hconn, h2, okResult]
  · simp [callToolRequest, ha]

/-- Witness for C4: timeout and exit-code-2 runs against the one-entry
table, and the dispatcher default for an absent timeout. -/
theorem c4_exec_witness :
    (handleSSHExec wTimeout stOne
        { connectionId := "c1", command := "sleep 100", cwd := none
        , timeout := 60000 }).1 =
      errResult ("Command execution failed: Command execution timed out after "
        ++ toString (60000 : Nat) ++ "ms")
    ∧ (handleSSHExec wExit2 stOne
        { connectionId := "c1", command := "sleep 100", cwd := none
        , timeout := 60000 }).1 =
      okResult ("Command: " ++ "sleep 100" ++ "\nExit code: " ++ toString (2 : Int)
        ++ "\nOutput:\n" ++ outputOf "".trim "boom".trim)
    ∧ (handleSSHExec wExit2 stOne
        { connectionId := "c1", command := "sleep 100", cwd := none
        , timeout := 60000 }).1.isError = false
    ∧ callToolRequest wTimeout stOne "ssh_exec"
        { connectionId := some "c1", command := some "sleep 100" } =
      Except.ok (handleSSHExec wTimeout stOne
        { connectionId := undefStr (some "c1")
        , command := undefStr (some "sleep 100")
        , cwd := none
        , timeout := 60000 }) :=
  c4_exec_timeout_and_exit stOne
    { connectionId := "c1", command := "sleep 100", cwd := none, timeout := 60000 }
    rec1 wTimeout wExit2 2 none "" "boom"
    { connectionId := some "c1", command := some "sleep 100" } rfl rfl rfl rfl

/-- Claim C6: a successful disconnect on a known id closes the stored
transport handle (exactly one `end` call), removes the record from the
table, confirms with the endpoint stored at connect time, and a
subsequent execute with the same id gets the UnknownConnection envelope
with no transport call. -/
theorem c6_disconnect_removes (w w2 : World) (st : ServerState)
    (p : DisconnectParams) (cr : ConnRecord) (cmd : String)
    (cwd : Option String) (tmo : Nat)
    (hconn : tableGet p.connectionId st.connections = some cr)
    (hend : w.endOutcome = Except.ok ()) :
    (handleSSHDisconnect w st p).1 =
      okResult ("Disconnected from " ++ cr.config.username ++ "@"
        ++ cr.config.host ++ ":" ++ toString cr.config.port)
    ∧ (handleSSHDisconnect w st p).2.2 = [Event.connEnd cr.conn]
    ∧ tableGet p.connectionId (handleSSHDisconnect w st p).2.1.connections = none
    ∧ handleSSHExec w2 (handleSSHDisconnect w st p).2.1
        { connectionId := p.connectionId, command := cmd, cwd := cwd
        , timeout := tmo } =
      (errResult ("No active SSH connection with ID: " ++ p.connectionId),
       (handleSSHDisconnect w st p).2.1, []) := by
  have hstate : (handleSSHDisconnect w st p).2.1 =
      { st with connections := tableDel p.connectionId st.connections } := by
    simp [handleSSHDisconnect, hconn, hend]
  have hnone :
      tableGet p.connectionId (handleSSHDisconnect w st p).2.1.connections = none := by
    rw [hstate]
    exact tableGet_tableDel_self p.connectionId st.connections
  refine ⟨?_, ?_, hnone, ?_⟩
  · simp [handleSSHDisconnect, hconn, hend]
  · simp [handleSSHDisconnect, hconn, hend]
  · simp [handleSSHExec, hnone]

/-- Witness for C6: disconnect `c1` from the one-entry table, then
execute on `c1` again. -/
theorem c6_disconnect_witness :
    (handleSSHDisconnect w0 stOne { connectionId := "c1" }).1 =
      okResult ("Disconnected from " ++ "u" ++ "@" ++ "h" ++ ":"
        ++ toString (22 : Nat))
    ∧ (handleSSHDisconnect w0 stOne { connectionId := "c1" }).2.2 =
      [Event.connEnd 7]
    ∧ tableGet "c1" (handleSSHDisconnect w0 stOne { connectionId := "c1" }).2.1.connections = none
    ∧ handleSSHExec w0 (handleSSHDisconnect w0 stOne { connectionId := "c1" }).2.1
        { connectionId := "c1", command := "ls", cwd := none, timeout := 60000 } =
      (errResult ("No active SSH connection with ID: " ++ "c1"),
       (handleSSHDisconnect w0 stOne { connectionId := "c1" }).2.1, []) :=
  c6_disconnect_removes w0 w0 stOne { connectionId := "c1" } rec1 "ls" none 60000
    rfl rfl

/-- Claim C9: on a successful list, the emitted text is the rendering of
the entries mapped through `fileInfoOf`, and for every entry the
`isDirectory` flag is true exactly when `mode AND 0x4000 = 0x4000`, with
the filename, byte size, and the ISO-8601 rendering of the
seconds-since-epoch mtime carried alongside. -/
theorem c9_list_fields (w : World) (st : ServerState) (p : ListParams)
    (cr : ConnRecord) (files : List DirEntry)
    (hconn : tableGet p.connectionId st.connections = some cr)
    (hs : w.sftpOutcome = Except.ok ())
    (hr : w.readdirOutcome = Except.ok files) :
    (handleSSHListFiles w st p).1 =
      okResult ("Files in " ++ p.remotePath ++ ":\n\n"
        ++ stringifyFileList (files.map fileInfoOf))
    ∧ ∀ e ∈ files,
        ((fileInfoOf e).isDirectory = true ↔ e.attrs.mode &&& 0x4000 = 0x4000)
        ∧ (fileInfoOf e).filename = e.filename
        ∧ (fileInfoOf e).size = e.attrs.size
        ∧ (fileInfoOf e).lastModified = toISOString (e.attrs.mtime * 1000) := by
  constructor
  · simp [handleSSHListFiles, hconn, hs, hr]
  · intro e _
    refine ⟨?_, rfl, rfl, rfl⟩
    simp [fileInfoOf]

/-- Witness for C9 on the two sample entries (a regular file and a
directory). -/
theorem c9_list_fields_witness :
    (handleSSHListFiles wListing stOne
        { connectionId := "c1", remotePath := "/srv" }).1 =
      okResult ("Files in " ++ "/srv" ++ ":\n\n"
        ++ stringifyFileList (sampleEntries.map fileInfoOf))
    ∧ ∀ e ∈ sampleEntries,
        ((fileInfoOf e).isDirectory = true ↔ e.attrs.mode &&& 0x4000 = 0x4000)
        ∧ (fileInfoOf e).filename = e.filename
        ∧ (fileInfoOf e).size = e.attrs.size
        ∧ (fileInfoOf e).lastModified = toISOString (e.attrs.mtime * 1000) :=
  c9_list_fields wListing stOne { connectionId := "c1", remotePath := "/srv" }
    rec1 sampleEntries rfl rfl rfl

/-- Claim C5: a second successful connect reusing an id already bound in
the table overwrites that entry — afterwards the id maps exactly to the
new handle, every other id is untouched, the old record is no longer the
id's binding — while the prior handle is never closed (the event trace of
connect holds no `end` call), and key uniqueness of the table is
preserved. -/
theorem c5_connect_overwrite_no_close (w : World) (st : ServerState)
    (p : ConnectParams) (oldRec : ConnRecord)
    (hold : tableGet p.connectionId st.connections = some oldRec)
    (hpw : truthy p.password = true)
    (hpk : p.privateKeyPath = none)
    (hc : w.connectOutcome = Except.ok ())
    (hfresh : oldRec.conn ≠ w.freshConn) :
    tableGet p.connectionId (handleSSHConnect w st p).2.1.connections =
      some { conn := w.freshConn
           , config := { host := p.host, port := p.port, username := p.username } }
    ∧ tableGet p.connectionId (handleSSHConnect w st p).2.1.connections ≠ some oldRec
    ∧ (∀ k, k ≠ p.connectionId →
        tableGet k (handleSSHConnect w st p).2.1.connections =
          tableGet k st.connections)
    ∧ (handleSSHConnect w st p).2.2 =
      [Event.clientConnect
        { host := p.host, port := p.port, username := p.username
        , readyTimeout := 30000, password := p.password }]
    ∧ ((st.connections.map Prod.fst).Nodup →
        ((handleSSHConnect w st p).2.1.connections.map Prod.fst).Nodup) := by
  have hpkf : truthy p.privateKeyPath = false := by
    rw [hpk]
    rfl
  have hstate : (handleSSHConnect w st p).2.1.connections =
      tableSet p.connectionId ⟨w.freshConn, ⟨p.host, p.port, p.username⟩⟩
        st.connections := by
    simp [handleSSHConnect, hpw, hpkf, connectFinish, hc]
  have h1 : tableGet p.connectionId (handleSSHConnect w st p).2.1.connections =
      some { conn := w.freshConn
           , config := { host := p.host, port := p.port, username := p.username } } := by
    rw [hstate]
    exact tableGet_tableSet_self _ _ _
  refine ⟨h1, ?_, ?_, ?_, ?_⟩
  · rw [h1]
    intro heq
    apply hfresh
    have hrec := Option.some.inj heq
    rw [← hrec]
  · intro k hk
    rw [hstate]
    exact tableGet_tableSet_ne _ _ _ _ hk
  · simp [handleSSHConnect, hpw, hpkf, connectFinish, hc]
  · intro hnd
    rw [hstate]
    exact nodup_keys_tableSet _ _ _ hnd

/-- Witness for C5: reconnect with id `c1`, already bound to handle 7,
getting fresh handle 1. -/
theorem c5_connect_overwrite_witness :
    tableGet "c1" (handleSSHConnect w0 stOne
        { host := "h2", port := 2022, username := "u2", password := some "pw"
        , privateKeyPath := none, passphrase := none, connectionId := "c1" }).2.1.connections =
      some { conn := 1
           , config := { host := "h2", port := 2022, username := "u2" } }
    ∧ tableGet "c1" (handleSSHConnect w0 stOne
        { host := "h2", port := 2022, username := "u2", password := some "pw"
        , privateKeyPath := none, passphrase := none, connectionId := "c1" }).2.1.connections ≠ some rec1
    ∧ (∀ k, k ≠ "c1" →
        tableGet k (handleSSHConnect w0 stOne
          { host := "h2", port := 2022, username := "u2", password := some "pw"
          , privateKeyPath := none, passphrase := none, connectionId := "c1" }).2.1.connections =
          tableGet k stOne.connections)
    ∧ (handleSSHConnect w0 stOne
        { host := "h2", port := 2022, username := "u2", password := some "pw"
        , privateKeyPath := none, passphrase := none, connectionId := "c1" }).2.2 =
      [Event.clientConnect
        { host := "h2", port := 2022, username := "u2"
        , readyTimeout := 30000, password := some "pw" }]
    ∧ ((stOne.connections.map Prod.fst).Nodup →
        ((handleSSHConnect w0 stOne
          { host := "h2", port := 2022, username := "u2", password := some "pw"
          , privateKeyPath := none, passphrase := none, connectionId := "c1" }).2.1.connections.map Prod.fst).Nodup) :=
  c5_connect_overwrite_no_close w0 stOne
    { host := "h2", port := 2022, username := "u2", password := some "pw"
    , privateKeyPath := none, passphrase := none, connectionId := "c1" }
    rec1 rfl rfl rfl rfl (by decide)

/-- Claim C7: a connect whose privateKeyPath starts with a tilde reads the
key at the path with the tilde replaced by the home directory; if that
read fails the handler returns the KeyReadError envelope without any
transport connect, and if it succeeds the connect proceeds with exactly
the key bytes read from the expanded path. -/
theorem c7_key_tilde_expansion (st : ServerState) (p : ConnectParams)
    (pk : String) (cs : List Char) (msg key : String) (w1 w2 : World)
    (hpk : p.privateKeyPath = some pk)
    (hdata : pk.data = '~' :: cs)
    (h1 : w1.readFile (w1.homedir ++ String.mk cs) = Except.error msg)
    (h2 : w2.readFile (w2.homedir ++ String.mk cs) = Except.ok key) :
    handleSSHConnect w1 st p =
      (errResult ("Failed to read private key: " ++ msg), st,
       [Event.readKeyFile (w1.homedir ++ String.mk cs)])
    ∧ (handleSSHConnect w2 st p).2.2 =
      [Event.readKeyFile (w2.homedir ++ String.mk cs),
       Event.clientConnect
         { host := p.host, port := p.port, username := p.username
         , readyTimeout := 30000, privateKey := some key
         , passphrase := if truthy p.passphrase then p.passphrase else none }] := by
  have hne : pk ≠ "" := by
    intro h
    rw [h] at hdata
    simp at hdata
  have htr : truthy (some pk) = true := by simp [truthy, hne]
  have hexp1 : expandTilde w1.homedir pk = w1.homedir ++ String.mk cs := by
    unfold expandTilde
    rw [hdata]
    rfl
  have hexp2 : expandTilde w2.homedir pk = w2.homedir ++ String.mk cs := by
    unfold expandTilde
    rw [hdata]
    rfl
  constructor
  · simp [handleSSHConnect, hpk, htr, hexp1, h1]
  · cases hc : w2.connectOutcome <;>
      simp [handleSSHConnect, hpk, htr, hexp2, h2, connectFinish, hc]

/-- Witness for C7 at path `~/.ssh/id` against home `/home/u`: the read
happens at `/home/u/.ssh/id` (failing in `wReadErr`, succeeding in `w0`). -/
theorem c7_key_tilde_witness :
    handleSSHConnect wReadErr stEmpty
        { host := "h", port := 22, username := "u", password := none
        , privateKeyPath := some "~/.ssh/id", passphrase := none
        , connectionId := "c1" } =
      (errResult ("Failed to read private key: " ++ "ENOENT"), stEmpty,
       [Event.readKeyFile (wReadErr.homedir ++ String.mk "/.ssh/id".data)])
    ∧ (handleSSHConnect w0 stEmpty
        { host := "h", port := 22, username := "u", password := none
        , privateKeyPath := some "~/.ssh/id", passphrase := none
        , connectionId := "c1" }).2.2 =
      [Event.readKeyFile (w0.homedir ++ String.mk "/.ssh/id".data),
       Event.clientConnect
         { host := "h", port := 22, username := "u"
         , readyTimeout := 30000, privateKey := some "KEYDATA"
         , passphrase := if truthy none then none else none }] :=
  c7_key_tilde_expansion stEmpty
    { host := "h", port := 22, username := "u", password := none
    , privateKeyPath := some "~/.ssh/id", passphrase := none
    , connectionId := "c1" }
    "~/.ssh/id" "/.ssh/id".data "ENOENT" "KEYDATA" wReadErr w0 rfl rfl rfl rfl

/-- Claim C8: on a known id, download ensures the parent directory of the
tilde-expanded local path exists before the transfer: when it is missing
it is created recursively (with its ancestors) as the first effect,
before any sftp call; when it already exists, nothing is created and the
operation still succeeds. -/
theorem c8_download_mkdir (w : World) (st1 st2 : ServerState)
    (p : DownloadParams) (cr1 cr2 : ConnRecord) (d : String)
    (hdir : d = dirname (expandTilde w.homedir p.localPath))
    (hc1 : tableGet p.connectionId st1.connections = some cr1)
    (hc2 : tableGet p.connectionId st2.connections = some cr2)
    (hd1 : st1.localDirs.contains d = false)
    (hd2 : st2.localDirs.contains d = true)
    (hs : w.sftpOutcome = Except.ok ())
    (hg : w.fastGetOutcome = Except.ok ()) :
    d ∈ (handleSSHDownload w st1 p).2.1.localDirs
    ∧ (∀ a ∈ ancestorsAux (d.length + 1) d,
        a ∈ (handleSSHDownload w st1 p).2.1.localDirs)
    ∧ (handleSSHDownload w st1 p).2.2 =
      [Event.mkdirRec d, Event.sftpInit cr1.conn,
       Event.fastGet cr1.conn p.remotePath (expandTilde w.homedir p.localPath)]
    ∧ (handleSSHDownload w st1 p).1.isError = false
    ∧ (handleSSHDownload w st2 p).2.1.localDirs = st2.localDirs
    ∧ (handleSSHDownload w st2 p).2.2 =
      [Event.sftpInit cr2.conn,
       Event.fastGet cr2.conn p.remotePath (expandTilde w.homedir p.localPath)]
    ∧ (handleSSHDownload w st2 p).1.isError = false := by
  subst hdir
  have hm1 : dirname (expandTilde w.homedir p.localPath) ∉ st1.localDirs := by
    simpa using hd1
  have hm2 : dirname (expandTilde w.homedir p.localPath) ∈ st2.localDirs := by
    simpa using hd2
  have hout1 : handleSSHDownload w st1 p =
      (okResult ("Successfully downloaded " ++ p.remotePath ++ " to "
          ++ expandTilde w.homedir p.localPath),
       { st1 with localDirs :=
          mkdirRecursive st1.localDirs (dirname (expandTilde w.homedir p.localPath)) },
       [Event.mkdirRec (dirname (expandTilde w.homedir p.localPath)),
        Event.sftpInit cr1.conn,
        Event.fastGet cr1.conn p.remotePath (expandTilde w.homedir p.localPath)]) := by
    simp [handleSSHDownload, hc1, hm1, hs, hg]
  have hout2 : handleSSHDownload w st2 p =
      (okResult ("Successfully downloaded " ++ p.remotePath ++ " to "
          ++ expandTilde w.homedir p.localPath),
       { st2 with localDirs := st2.localDirs },
       [Event.sftpInit cr2.conn,
        Event.fastGet cr2.conn p.remotePath (expandTilde w.homedir p.localPath)]) := by
    simp [handleSSHDownload, hc2, hm2, hs, hg]
  refine ⟨?_, ?_, ?_, ?_, ?_, ?_, ?_⟩
  · rw [hout1]
    simp [mkdirRecursive]
  · intro a ha
    rw [hout1]
    simp only [mkdirRecursive]
    exact List.mem_cons_of_mem _ (List.mem_append_left _ ha)
  · rw [hout1]
  · rw [hout1]
    rfl
  · rw [hout2]
  · rw [hout2]
  · rw [hout2]
    rfl

/-- Witness for C8: download to `~/dl/f.txt` (parent `/home/u/dl`) with
the parent missing in `stOne` and present in `stDirs`. -/
theorem c8_download_mkdir_witness :
    "/home/u/dl" ∈ (handleSSHDownload w0 stOne
        { connectionId := "c1", remotePath := "/srv/f.txt"
        , localPath := "~/dl/f.txt" }).2.1.localDirs
    ∧ (∀ a ∈ ancestorsAux ("/home/u/dl".length + 1) "/home/u/dl",
        a ∈ (handleSSHDownload w0 stOne
          { connectionId := "c1", remotePath := "/srv/f.txt"
          , localPath := "~/dl/f.txt" }).2.1.localDirs)
    ∧ (handleSSHDownload w0 stOne
        { connectionId := "c1", remotePath := "/srv/f.txt"
        , localPath := "~/dl/f.txt" }).2.2 =
      [Event.mkdirRec "/home/u/dl", Event.sftpInit 7,
       Event.fastGet 7 "/srv/f.txt" (expandTilde w0.homedir "~/dl/f.txt")]
    ∧ (handleSSHDownload w0 stOne
        { connectionId := "c1", remotePath := "/srv/f.txt"
        , localPath := "~/dl/f.txt" }).1.isError = false
    ∧ (handleSSHDownload w0 stDirs
        { connectionId := "c1", remotePath := "/srv/f.txt"
        , localPath := "~/dl/f.txt" }).2.1.localDirs = stDirs.localDirs
    ∧ (handleSSHDownload w0 stDirs
        { connectionId := "c1", remotePath := "/srv/f.txt"
        , localPath := "~/dl/f.txt" }).2.2 =
      [Event.sftpInit 7,
       Event.fastGet 7 "/srv/f.txt" (expandTilde w0.homedir "~/dl/f.txt")]
    ∧ (handleSSHDownload w0 stDirs
        { connectionId := "c1", remotePath := "/srv/f.txt"
        , localPath := "~/dl/f.txt" }).1.isError = false :=
  c8_download_mkdir w0 stOne stDirs
    { connectionId := "c1", remotePath := "/srv/f.txt", localPath := "~/dl/f.txt" }
    rec1 rec1 "/home/u/dl" rfl rfl rfl rfl rfl rfl rfl

/-- Counterexample to C1 as stated: dispatching the unregistered tool name
`ssh_reboot` does not return an Operation Result envelope — the dispatcher
throws (`Except.error`), so the error propagates past the dispatcher to
the protocol layer instead of being funnelled into an envelope with the
error flag set. -/
theorem c1_counterexample :
    callToolRequest w0 stEmpty "ssh_reboot" args0 =
      Except.error ("Unknown tool: " ++ "ssh_reboot") := rfl

/-- Claim C1 as amended: an invocation of any of the six registered tool
names returns an Operation Result envelope (handlers funnel every error
they detect into an envelope with the error flag set and never throw),
while an unregistered tool name makes the dispatcher itself throw an
`Unknown tool` error, which propagates past the dispatcher rather than
being returned as an envelope. -/
theorem c1_dispatch_envelope (w : World) (st : ServerState) (args : Args)
    (name : String) :
    dispatchOk (callToolRequest w st name args) = isRegisteredTool name
    ∧ (isRegisteredTool name = false →
        callToolRequest w st name args = Except.error ("Unknown tool: " ++ name)) := by
  cases h1 : name == "ssh_connect" <;>
  cases h2 : name == "ssh_exec" <;>
  cases h3 : name == "ssh_upload_file" <;>
  cases h4 : name == "ssh_download_file" <;>
  cases h5 : name == "ssh_list_files" <;>
  cases h6 : name == "ssh_disconnect" <;>
  simp [callToolRequest, isRegisteredTool, dispatchOk, h1, h2, h3, h4, h5, h6]

/-- Witness for C1 (amended) at the unregistered name `ssh_nope`. -/
theorem c1_dispatch_witness :
    dispatchOk (callToolRequest w0 stEmpty "ssh_nope" args0) =
      isRegisteredTool "ssh_nope"
    ∧ callToolRequest w0 stEmpty "ssh_nope" args0 =
      Except.error ("Unknown tool: " ++ "ssh_nope") :=
  ⟨(c1_dispatch_envelope w0 stEmpty args0 "ssh_nope").1,
   (c1_dispatch_envelope w0 stEmpty args0 "ssh_nope").2 rfl⟩

end SSHMCP
